import Mathlib

/-!
Shallow embedding of the madara block-import verification pipeline
(crates/client/block_import/src/verify_apply.rs) and of the two-tier class
store (crates/client/db/src/class_db.rs), with theorems checking the
natural-language specification against the code.

Modelling conventions:
- `Felt` (a 253-bit prime-field element in the source) is modelled as `Nat`.
  The embedded code only ever compares felts for equality, tests them
  against zero, and feeds them to externally-fixed hash functions, so no
  field arithmetic is needed.
- Externally-fixed cryptographic primitives (the Poseidon array hash, the
  header-hash function `Header::compute_hash`) and the results of the
  external trie-update oracles (`contracts::contract_trie_root`,
  `classes::class_trie_root`) are universally-quantified parameters: every
  theorem holds for any choice of these functions, exactly as the code is
  agnostic to them.
- Database reads/writes are modelled by explicit state: the latest-block
  pointer for the import path, and four key-value maps (pending/finalized
  class-info and class-compiled columns) for the class store.
-/

/-- Field element. All felt values the embedded code manipulates are only
compared for equality or passed to abstract hash functions. -/
abbrev Felt := Nat

/-- `Felt::ZERO`. -/
def Felt.ZERO : Felt := 0

/-- Chain identifier (`starknet_api::core::ChainId`). -/
inductive ChainId where
  | Mainnet
  | Sepolia
  | Other (s : String)
deriving DecidableEq, Repr

/-- `BlockValidationContext`: chain id plus the two policy flags. -/
structure BlockValidationContext where
  chain_id : ChainId
  ignore_block_order : Bool
  trust_global_tries : Bool
deriving DecidableEq, Repr

/-- `BlockImportError` (the variants reachable from the embedded code).
`InternalDb` wraps an underlying storage failure with a context string;
`Internal` is the fatal internal-invariant violation. -/
inductive BlockImportError where
  | LatestBlockN (expected got : Nat)
  | ParentHash (expected got : Felt)
  | GlobalStateRoot (got expected : Felt)
  | BlockHash (got expected : Felt)
  | InternalDb (context : String)
  | Internal (msg : String)
deriving DecidableEq, Repr

/-- `UnverifiedHeader`: candidate header fields supplied by the producer.
`protocol_version`, `l1_gas_price` and `l1_da_mode` are passthrough scalars
(the code never inspects them), modelled as `Nat`. -/
structure UnverifiedHeader where
  parent_block_hash : Option Felt
  sequencer_address : Felt
  block_timestamp : Nat
  protocol_version : Nat
  l1_gas_price : Nat
  l1_da_mode : Nat
deriving DecidableEq, Repr

/-- `ValidatedCommitments`: commitments computed by the earlier pipeline
stage and trusted here. -/
structure ValidatedCommitments where
  transaction_count : Nat
  transaction_commitment : Felt
  event_count : Nat
  event_commitment : Felt
  state_diff_length : Nat
  state_diff_commitment : Felt
  receipt_commitment : Felt
deriving DecidableEq, Repr

/-- `PreValidatedBlock`, restricted to the fields the verification logic
reads. Transactions, receipts, the state diff and the converted classes are
only forwarded to external collaborators (trie oracle, storage) and are
omitted; the trie-oracle results are passed to `update_tries` explicitly. -/
structure PreValidatedBlock where
  header : UnverifiedHeader
  commitments : ValidatedCommitments
  unverified_block_number : Option Nat
  unverified_block_hash : Option Felt
  unverified_global_state_root : Option Felt
deriving DecidableEq, Repr

/-- Finalized `Header`, field-for-field as assembled by `block_hash`. -/
structure Header where
  parent_block_hash : Felt
  block_number : Nat
  global_state_root : Felt
  sequencer_address : Felt
  block_timestamp : Nat
  transaction_count : Nat
  transaction_commitment : Felt
  event_count : Nat
  event_commitment : Felt
  state_diff_length : Option Nat
  state_diff_commitment : Option Felt
  receipt_commitment : Option Felt
  protocol_version : Nat
  l1_gas_price : Nat
  l1_da_mode : Nat
deriving DecidableEq, Repr

/-- `BlockImportResult`: finalized header plus block hash. -/
structure BlockImportResult where
  header : Header
  block_hash : Felt
deriving DecidableEq, Repr

/-- Info the backend returns for the latest block: either a pending block
or a finalized one carrying its number and hash
(`MadaraMaybePendingBlockInfo`, restricted to what
`check_parent_hash_and_num` reads). -/
inductive MaybePendingInfo where
  | pending
  | notPending (block_number : Nat) (block_hash : Felt)
deriving DecidableEq, Repr

/-- `info.as_nonpending()`. -/
def MaybePendingInfo.as_nonpending : MaybePendingInfo → Option (Nat × Felt)
  | .pending => none
  | .notPending n h => some (n, h)

/-- `check_parent_hash_and_num` (verify_apply.rs lines 147-180), with the
backend's answer to `get_block_info(Latest)` passed in as
`latest_block_info` (the db-read-error case is not modelled: the claims are
about the validation logic, not storage failures). Returns the resolved
block number and the parent hash to embed in the header. -/
def check_parent_hash_and_num (latest_block_info : Option MaybePendingInfo)
    (parent_block_hash : Option Felt) (unverified_block_number : Option Nat)
    (validation : BlockValidationContext) :
    Except BlockImportError (Nat × Felt) := do
  let (expected_block_number, expected_parent_block_hash) ←
    match latest_block_info with
    | some info =>
      match info.as_nonpending with
      | none => Except.error (BlockImportError.Internal "Latest block cannot be pending")
      | some (n, h) => Except.ok (n + 1, h)
    | none =>
      -- importing genesis block
      Except.ok (0, Felt.ZERO)
  let block_number ←
    match unverified_block_number with
    | some block_n =>
      if block_n ≠ expected_block_number ∧ ¬ validation.ignore_block_order then
        Except.error (BlockImportError.LatestBlockN expected_block_number block_n)
      else
        Except.ok block_n
    | none => Except.ok expected_block_number
  match parent_block_hash with
  | some claimed =>
    if claimed ≠ expected_parent_block_hash ∧ ¬ validation.ignore_block_order then
      Except.error (BlockImportError.ParentHash expected_parent_block_hash claimed)
    else
      Except.ok (block_number, expected_parent_block_hash)
  | none => Except.ok (block_number, expected_parent_block_hash)

/-- The domain-separation constant the source writes as
`Felt::from_hex_unchecked("0x535441524b4e45545f53544154455f5630")`,
documented in the source as the felt encoding of "STARKNET_STATE_V0". -/
def STARKNET_STATE_V0 : Felt := 0x535441524b4e45545f53544154455f5630

/-- Big-endian ASCII encoding of a string as a felt (the Starknet
short-string encoding the constant above is claimed to be). -/
def asciiFelt (s : String) : Felt :=
  s.data.foldl (fun a c => a * 256 + c.toNat) 0

/-- `calculate_state_root` (verify_apply.rs lines 185-191), parameterized
over the external Poseidon array hash. -/
def calculate_state_root (poseidonHashArray : List Felt → Felt)
    (contracts_trie_root classes_trie_root : Felt) : Felt :=
  if classes_trie_root = Felt.ZERO then
    contracts_trie_root
  else
    poseidonHashArray [STARKNET_STATE_V0, contracts_trie_root, classes_trie_root]

/-- `update_tries` (verify_apply.rs lines 194-232). The two trie-update
computations are external oracles (`mod contracts` / `mod classes`); their
results for this call, including possible storage errors, are passed in as
`contract_trie_root` / `class_trie_root` (an `Except` mirroring
`Result<Felt, MadaraStorageError>`). -/
def update_tries (poseidonHashArray : List Felt → Felt)
    (contract_trie_root class_trie_root : Except String Felt)
    (block : PreValidatedBlock) (validation : BlockValidationContext) :
    Except BlockImportError Felt := do
  if validation.trust_global_tries then
    match block.unverified_global_state_root with
    | none =>
      Except.error (BlockImportError.Internal
        "Trying to import a block without a global state root but ")
    | some global_state_root => return global_state_root
  else
    let contracts_root ←
      match contract_trie_root with
      | .error _ => Except.error (BlockImportError.InternalDb "updating contract trie root")
      | .ok r => Except.ok r
    let classes_root ←
      match class_trie_root with
      | .error _ => Except.error (BlockImportError.InternalDb "updating class trie root")
      | .ok r => Except.ok r
    let state_root := calculate_state_root poseidonHashArray contracts_root classes_root
    match block.unverified_global_state_root with
    | some expected =>
      if expected ≠ state_root then
        Except.error (BlockImportError.GlobalStateRoot state_root expected)
      else
        Except.ok state_root
    | none => Except.ok state_root

/-- The header `block_hash` assembles (verify_apply.rs lines 244-279). -/
def mkHeader (block : PreValidatedBlock) (block_number : Nat)
    (parent_block_hash global_state_root : Felt) : Header :=
  { parent_block_hash := parent_block_hash
    block_number := block_number
    global_state_root := global_state_root
    sequencer_address := block.header.sequencer_address
    block_timestamp := block.header.block_timestamp
    transaction_count := block.commitments.transaction_count
    transaction_commitment := block.commitments.transaction_commitment
    event_count := block.commitments.event_count
    event_commitment := block.commitments.event_commitment
    state_diff_length := some block.commitments.state_diff_length
    state_diff_commitment := some block.commitments.state_diff_commitment
    receipt_commitment := some block.commitments.receipt_commitment
    protocol_version := block.header.protocol_version
    l1_gas_price := block.header.l1_gas_price
    l1_da_mode := block.header.l1_da_mode }

/-- `block_hash` (verify_apply.rs lines 235-295), parameterized over the
external header-hash primitive `compute_hash` (which the code calls as
`header.compute_hash(validation.chain_id.to_felt())`; the composition with
`to_felt` is absorbed into the `ChainId` argument). -/
def block_hash (compute_hash : Header → ChainId → Felt)
    (block : PreValidatedBlock) (validation : BlockValidationContext)
    (block_number : Nat) (parent_block_hash global_state_root : Felt) :
    Except BlockImportError (Felt × Header) :=
  let header := mkHeader block block_number parent_block_hash global_state_root
  let hash := compute_hash header validation.chain_id
  match block.unverified_block_hash with
  | some expected =>
    -- mismatched block hash is allowed for blocks 1466..=2242 on mainnet
    let is_special_trusted_case :=
      validation.chain_id = ChainId.Mainnet ∧ 1466 ≤ block_number ∧ block_number ≤ 2242
    if is_special_trusted_case then
      Except.ok (expected, header)
    else if expected ≠ hash ∧ ¬ validation.ignore_block_order then
      Except.error (BlockImportError.BlockHash hash expected)
    else
      Except.ok (hash, header)
  | none => Except.ok (hash, header)

/-- `PendingHeader` (mp_block), field-for-field as assembled by
`verify_apply_pending_inner`: the Header fields without block number,
state root and hash. -/
structure PendingHeader where
  parent_block_hash : Felt
  sequencer_address : Felt
  block_timestamp : Nat
  protocol_version : Nat
  l1_gas_price : Nat
  l1_da_mode : Nat
deriving DecidableEq, Repr

/-- `PreValidatedPendingBlock`, restricted to the fields the verification
logic reads (transactions, receipts, state diff and converted classes are
only forwarded to storage, as for `PreValidatedBlock`). -/
structure PreValidatedPendingBlock where
  header : UnverifiedHeader
deriving DecidableEq, Repr

/-- `PendingBlockImportResult`: marker of success. -/
structure PendingBlockImportResult where
deriving DecidableEq, Repr

/-- The slice of backend state the two import paths read and write: the
latest-block pointer, and the pending tier's staged block header. -/
structure Backend where
  latest_block_info : Option MaybePendingInfo
  stored_pending_header : Option PendingHeader
deriving DecidableEq, Repr

/-- Modelled from the spec: `MadaraBackend::store_block` lives in the db
crate (not under the sources embedded here); per the spec, on success the
process-wide latest-block state advances to the just-stored finalized
block, so storing sets the latest pointer to the new block's number and
hash. Storage failures are not modelled. -/
def store_block_finalized (backend : Backend) (block_number : Nat)
    (stored_block_hash : Felt) : Backend :=
  { backend with
    latest_block_info := some (MaybePendingInfo.notPending block_number stored_block_hash) }

/-- Modelled from the spec: `MadaraBackend::store_block` on a pending
block (also db crate, not under the sources embedded here) stages the
block in the pending tier; the pending header it carries becomes the
staged one. Storage failures are not modelled. -/
def store_block_pending (backend : Backend) (header : PendingHeader) : Backend :=
  { backend with stored_pending_header := some header }

/-- `verify_apply_inner` (verify_apply.rs lines 62-97): continuity check,
trie update, hash computation, then store. Abstract primitives and the
trie-oracle results for this call are passed as parameters. -/
def verify_apply_inner (poseidonHashArray : List Felt → Felt)
    (compute_hash : Header → ChainId → Felt)
    (contract_trie_root class_trie_root : Except String Felt)
    (backend : Backend) (block : PreValidatedBlock)
    (validation : BlockValidationContext) :
    Except BlockImportError (BlockImportResult × Backend) := do
  let (block_number, parent_block_hash) ←
    check_parent_hash_and_num backend.latest_block_info block.header.parent_block_hash
      block.unverified_block_number validation
  let global_state_root ←
    update_tries poseidonHashArray contract_trie_root class_trie_root block validation
  let (hash, header) ←
    block_hash compute_hash block validation block_number parent_block_hash global_state_root
  let backend := store_block_finalized backend header.block_number hash
  return ({ header := header, block_hash := hash }, backend)

/-- `verify_apply_pending_inner` (verify_apply.rs lines 100-140):
continuity check with no claimed block number, then assembly of the
`PendingHeader` from the expected parent hash and the candidate's
passthrough fields, then store. -/
def verify_apply_pending_inner (backend : Backend) (block : PreValidatedPendingBlock)
    (validation : BlockValidationContext) :
    Except BlockImportError (PendingBlockImportResult × Backend) := do
  let (_block_number, parent_block_hash) ←
    check_parent_hash_and_num backend.latest_block_info block.header.parent_block_hash
      none validation
  let header : PendingHeader :=
    { parent_block_hash := parent_block_hash
      sequencer_address := block.header.sequencer_address
      block_timestamp := block.header.block_timestamp
      protocol_version := block.header.protocol_version
      l1_gas_price := block.header.l1_gas_price
      l1_da_mode := block.header.l1_da_mode }
  let backend := store_block_pending backend header
  return (⟨⟩, backend)

/-- The expected parent hash `check_parent_hash_and_num` derives from the
latest-block pointer: latest finalized block's hash, or zero at genesis. -/
def expectedParentHash (latest_block_info : Option MaybePendingInfo) : Felt :=
  match latest_block_info with
  | some (MaybePendingInfo.notPending _ h) => h
  | _ => Felt.ZERO

/-!
## Two-tier class store (crates/client/db/src/class_db.rs)

The four RocksDB columns the class store touches (`ClassInfo`,
`ClassCompiled`, `PendingClassInfo`, `PendingClassCompiled`) are modelled
as four key-value maps `Felt → Option v`. `WriteBatchWithTransaction` is a
list of puts applied in order on commit (a later put to the same key
overwrites an earlier one, as in RocksDB). The parallel `par_chunks`
iteration over fixed-size chunks is modelled as a sequential fold over the
chunks, one admissible linearization of the code's schedule; within one
chunk the duplicate check reads the state as of the start of the chunk,
exactly as in the code (the chunk's batch is only committed at its end).
-/

/-- Payload of a class-info record (`mp_class::ClassInfo`); opaque here. -/
abbrev ClassInfo := Nat

/-- A compiled Sierra program artifact (`mp_class::CompiledSierra`); opaque. -/
abbrev CompiledSierra := Nat

/-- `DbBlockId`: location tag of a stored record. -/
inductive DbBlockId where
  | Pending
  | BlockN (block_n : Nat)
deriving DecidableEq, Repr

/-- `DbBlockId::is_pending`. -/
def DbBlockId.is_pending : DbBlockId → Bool
  | .Pending => true
  | .BlockN _ => false

/-- `ClassInfoWithBlockNumber`: what the info columns store. -/
structure ClassInfoWithBlockNumber where
  class_info : ClassInfo
  block_id : DbBlockId
deriving DecidableEq, Repr

/-- `mp_class::ConvertedClass`: a Sierra class carries a compiled artifact
keyed by its compiled class hash; a legacy class does not. -/
inductive ConvertedClass where
  | sierra (class_hash : Felt) (info : ClassInfo) (compiled_class_hash : Felt)
      (compiled : CompiledSierra)
  | legacy (class_hash : Felt) (info : ClassInfo)
deriving DecidableEq, Repr

/-- `ConvertedClass::class_hash`. -/
def ConvertedClass.class_hash : ConvertedClass → Felt
  | .sierra h _ _ _ => h
  | .legacy h _ => h

/-- `ConvertedClass::info`. -/
def ConvertedClass.info : ConvertedClass → ClassInfo
  | .sierra _ i _ _ => i
  | .legacy _ i => i

/-- A key-value column. -/
def Col (v : Type) := Felt → Option v

/-- Point update of a column (a RocksDB put). -/
def Col.put {v : Type} (c : Col v) (k : Felt) (x : v) : Col v :=
  fun k' => if k' = k then some x else c k'

/-- The class-store columns of the backend database. -/
structure ClassDb where
  class_info : Col ClassInfoWithBlockNumber
  class_compiled : Col CompiledSierra
  pending_class_info : Col ClassInfoWithBlockNumber
  pending_class_compiled : Col CompiledSierra

/-- Which column pair a `store_classes` call targets (the code passes the
two columns explicitly; its two callers pass either both finalized columns
or both pending columns). -/
inductive Tier where
  | finalized
  | pending
deriving DecidableEq, Repr

/-- Read of the targeted info column. -/
def ClassDb.infoCol (db : ClassDb) : Tier → Col ClassInfoWithBlockNumber
  | .finalized => db.class_info
  | .pending => db.pending_class_info

/-- Read of the targeted compiled column. -/
def ClassDb.compiledCol (db : ClassDb) : Tier → Col CompiledSierra
  | .finalized => db.class_compiled
  | .pending => db.pending_class_compiled

/-- Put into the targeted info column. -/
def ClassDb.putInfo (db : ClassDb) (tier : Tier) (k : Felt)
    (x : ClassInfoWithBlockNumber) : ClassDb :=
  match tier with
  | .finalized => { db with class_info := db.class_info.put k x }
  | .pending => { db with pending_class_info := db.pending_class_info.put k x }

/-- Put into the targeted compiled column. -/
def ClassDb.putCompiled (db : ClassDb) (tier : Tier) (k : Felt)
    (x : CompiledSierra) : ClassDb :=
  match tier with
  | .finalized => { db with class_compiled := db.class_compiled.put k x }
  | .pending => { db with pending_class_compiled := db.pending_class_compiled.put k x }

/-- `contains_class` (class_db.rs lines 81-85): consults only the finalized
`ClassInfo` column, never the pending one. -/
def ClassDb.contains_class (db : ClassDb) (class_hash : Felt) : Bool :=
  (db.class_info class_hash).isSome

/-- Split a list into chunks of `n` elements (last chunk possibly shorter),
modelling `par_chunks(DB_UPDATES_BATCH_SIZE)`; the batch size constant is
kept as a parameter, all results hold for every size. -/
def chunked {α : Type} (n : Nat) : List α → List (List α)
  | [] => []
  | x :: xs => (x :: xs.take (n - 1)) :: chunked n (xs.drop (n - 1))
termination_by l => l.length
decreasing_by
  simp only [List.length_drop, List.length_cons]
  omega

/-- The write batch one chunk of the class-info loop accumulates
(class_db.rs lines 123-139): for each class of the chunk, in order, a put
of its `ClassInfoWithBlockNumber` keyed by class hash — skipped if
`contains_class` holds in `db`, the database state the chunk reads. -/
def infoBatch (db : ClassDb) (block_id : DbBlockId) (chunk : List ConvertedClass) :
    List (Felt × ClassInfoWithBlockNumber) :=
  chunk.foldl
    (fun batch c =>
      if db.contains_class c.class_hash then batch
      else batch ++ [(c.class_hash, ⟨c.info, block_id⟩)])
    []

/-- Commit a write batch to the targeted info column, puts in order. -/
def commitInfo (db : ClassDb) (tier : Tier)
    (batch : List (Felt × ClassInfoWithBlockNumber)) : ClassDb :=
  batch.foldl (fun d p => d.putInfo tier p.1 p.2) db

/-- The compiled-artifact key-value pair of a Sierra class (the
`filter_map` arm of class_db.rs lines 147-150): keyed by compiled class
hash; legacy classes carry none. -/
def sierraCompiledKv : ConvertedClass → Option (Felt × CompiledSierra)
  | .sierra _ _ compiled_class_hash compiled => some (compiled_class_hash, compiled)
  | .legacy _ _ => none

/-- `store_classes` (class_db.rs lines 110-169): first pass writes class
info per chunk with the legacy-redeclaration skip; second pass writes the
compiled artifact of every Sierra class unconditionally, keyed by compiled
class hash. -/
def store_classes (batchSize : Nat) (db : ClassDb) (block_id : DbBlockId)
    (converted_classes : List ConvertedClass) (tier : Tier) : ClassDb :=
  let db1 := (chunked batchSize converted_classes).foldl
    (fun d chunk => commitInfo d tier (infoBatch d block_id chunk)) db
  let compiledKvs := converted_classes.filterMap sierraCompiledKv
  (chunked batchSize compiledKvs).foldl
    (fun d chunk => chunk.foldl (fun d' p => d'.putCompiled tier p.1 p.2) d) db1

/-- `class_db_store_block` (class_db.rs lines 172-178). -/
def class_db_store_block (batchSize : Nat) (db : ClassDb) (block_number : Nat)
    (converted_classes : List ConvertedClass) : ClassDb :=
  store_classes batchSize db (DbBlockId.BlockN block_number) converted_classes Tier.finalized

/-- `class_db_store_pending` (class_db.rs lines 181-191). -/
def class_db_store_pending (batchSize : Nat) (db : ClassDb)
    (converted_classes : List ConvertedClass) : ClassDb :=
  store_classes batchSize db DbBlockId.Pending converted_classes Tier.pending

/-- `class_db_clear_pending` (class_db.rs lines 193-206): deletes the whole
pending key range of both pending columns. -/
def class_db_clear_pending (db : ClassDb) : ClassDb :=
  { db with pending_class_info := fun _ => none, pending_class_compiled := fun _ => none }

/-- `class_db_get_encoded_kv` (class_db.rs lines 20-45), for the info
column pair: a pending-aware read consults the pending column first and
falls through to the finalized column; a non-pending read consults only
the finalized column. -/
def class_db_get_encoded_kv_info (db : ClassDb) (is_pending : Bool) (key : Felt) :
    Option ClassInfoWithBlockNumber :=
  if is_pending then
    match db.pending_class_info key with
    | some res => some res -- found in pending
    | none => db.class_info key
  else
    db.class_info key

/-- Same read primitive for the compiled column pair. -/
def class_db_get_encoded_kv_compiled (db : ClassDb) (is_pending : Bool) (key : Felt) :
    Option CompiledSierra :=
  if is_pending then
    match db.pending_class_compiled key with
    | some res => some res
    | none => db.class_compiled key
  else
    db.class_compiled key

/-- The record-visibility rule of `get_class_info` (class_db.rs lines
68-72). -/
def visibilityValid : DbBlockId → DbBlockId → Bool
  | DbBlockId.Pending, _ => true
  | DbBlockId.BlockN block_n, DbBlockId.BlockN real_block_n => real_block_n ≤ block_n
  | DbBlockId.BlockN _, DbBlockId.Pending => false

/-- `get_class_info` (class_db.rs lines 47-79), with the block id already
resolved (`resolve_db_block_id` maps tags to a concrete `DbBlockId`;
failed resolution returns `None` before this logic runs). -/
def get_class_info (db : ClassDb) (requested_id : DbBlockId) (class_hash : Felt) :
    Option ClassInfo :=
  match class_db_get_encoded_kv_info db requested_id.is_pending class_hash with
  | none => none
  | some info =>
    if visibilityValid requested_id info.block_id then some info.class_info
    else none

/-- `get_sierra_compiled` (class_db.rs lines 87-107): same two-tier read,
no visibility filtering (the compiled record stores no block id). -/
def get_sierra_compiled (db : ClassDb) (requested_id : DbBlockId) (class_hash : Felt) :
    Option CompiledSierra :=
  class_db_get_encoded_kv_compiled db requested_id.is_pending class_hash

/-!
## Theorems
-/

/-- Binding a successful `Except` runs the continuation. -/
theorem except_bind_ok {ε α β : Type} (a : α) (f : α → Except ε β) :
    (Except.ok a >>= f) = f a := rfl

/-- Binding a failed `Except` short-circuits. -/
theorem except_bind_error {ε α β : Type} (e : ε) (f : α → Except ε β) :
    ((Except.error e : Except ε α) >>= f) = Except.error e := rfl

/-- A successful continuity check always returns the expected parent hash
derived from the backend state, whatever the candidate claimed. -/
theorem check_parent_hash_and_num_ok_hash (latest_block_info : Option MaybePendingInfo)
    (parent_block_hash : Option Felt) (unverified_block_number : Option Nat)
    (validation : BlockValidationContext) (num : Nat) (phash : Felt)
    (h : check_parent_hash_and_num latest_block_info parent_block_hash
      unverified_block_number validation = Except.ok (num, phash)) :
    phash = expectedParentHash latest_block_info := by
  unfold check_parent_hash_and_num at h
  rcases latest_block_info with _ | (_ | ⟨n, hsh⟩) <;>
    rcases unverified_block_number with _ | block_n <;>
    rcases parent_block_hash with _ | claimed <;>
    simp only [MaybePendingInfo.as_nonpending, except_bind_ok, except_bind_error] at h <;>
    simp only [expectedParentHash] <;>
    first
    | (split_ifs at h <;> simp_all [except_bind_ok, except_bind_error])
    | simp_all

/-- `pure` on `Except` is `Except.ok`. -/
theorem except_pure {ε α : Type} (a : α) : (pure a : Except ε α) = Except.ok a := rfl

/-- C2: the global state root equals the contracts trie root when the
classes trie root is the zero felt, and equals
Poseidon(PREFIX, contractsRoot, classesRoot) for any nonzero classes trie
root, where PREFIX is the felt encoding of the ASCII string
"STARKNET_STATE_V0" (0x535441524b4e45545f53544154455f5630). -/
theorem c2_state_root_combination (poseidonHashArray : List Felt → Felt)
    (root c : Felt) (hc : c ≠ Felt.ZERO) :
    calculate_state_root poseidonHashArray root Felt.ZERO = root ∧
    calculate_state_root poseidonHashArray root c =
      poseidonHashArray [STARKNET_STATE_V0, root, c] ∧
    STARKNET_STATE_V0 = asciiFelt "STARKNET_STATE_V0" ∧
    STARKNET_STATE_V0 = 0x535441524b4e45545f53544154455f5630 := by
  exact ⟨by simp [calculate_state_root], by simp [calculate_state_root, hc],
    by decide, by decide⟩

/-- Witness for C2 at contractsRoot 1, classesRoot 2, with a concrete
stand-in hash function. -/
theorem c2_state_root_combination_witness :
    calculate_state_root (fun l => l.foldl (fun a b => a + b) 0) 1 Felt.ZERO = 1 ∧
    calculate_state_root (fun l => l.foldl (fun a b => a + b) 0) 1 2 =
      (fun l : List Felt => l.foldl (fun a b => a + b) 0) [STARKNET_STATE_V0, 1, 2] ∧
    STARKNET_STATE_V0 = asciiFelt "STARKNET_STATE_V0" ∧
    STARKNET_STATE_V0 = 0x535441524b4e45545f53544154455f5630 :=
  c2_state_root_combination (fun l => l.foldl (fun a b => a + b) 0) 1 2 (by decide)

/-- C5: with `trust_global_tries` set, `update_tries` returns the asserted
global state root verbatim when present (performing no trie computation:
the result is independent of both trie-oracle results), and fails with the
internal-invariant error when no asserted root is present. -/
theorem c5_trusted_tries_fast_path (poseidonHashArray : List Felt → Felt)
    (contract_trie_root class_trie_root : Except String Felt)
    (block : PreValidatedBlock) (validation : BlockValidationContext)
    (htrust : validation.trust_global_tries = true) :
    (∀ r, block.unverified_global_state_root = some r →
      update_tries poseidonHashArray contract_trie_root class_trie_root block validation =
        Except.ok r) ∧
    (block.unverified_global_state_root = none →
      update_tries poseidonHashArray contract_trie_root class_trie_root block validation =
        Except.error (BlockImportError.Internal
          "Trying to import a block without a global state root but ")) ∧
    (∀ ctr2 clr2 : Except String Felt,
      update_tries poseidonHashArray contract_trie_root class_trie_root block validation =
        update_tries poseidonHashArray ctr2 clr2 block validation) := by
  refine ⟨fun r hr => ?_, fun hn => ?_, fun ctr2 clr2 => ?_⟩ <;>
    simp [update_tries, htrust, *, except_pure]

/-- Witness for C5: asserted root 9 returned verbatim; absence gives the
internal error. -/
theorem c5_trusted_tries_fast_path_witness :
    update_tries (fun _ => 0) (Except.error "e") (Except.error "e")
      ⟨⟨none, 0, 0, 0, 0, 0⟩, ⟨0, 0, 0, 0, 0, 0, 0⟩, none, none, some 9⟩
      ⟨ChainId.Mainnet, false, true⟩ = Except.ok 9 ∧
    update_tries (fun _ => 0) (Except.ok 1) (Except.ok 2)
      ⟨⟨none, 0, 0, 0, 0, 0⟩, ⟨0, 0, 0, 0, 0, 0, 0⟩, none, none, none⟩
      ⟨ChainId.Mainnet, false, true⟩ =
      Except.error (BlockImportError.Internal
        "Trying to import a block without a global state root but ") :=
  ⟨(c5_trusted_tries_fast_path (fun _ => 0) (Except.error "e") (Except.error "e")
      ⟨⟨none, 0, 0, 0, 0, 0⟩, ⟨0, 0, 0, 0, 0, 0, 0⟩, none, none, some 9⟩
      ⟨ChainId.Mainnet, false, true⟩ rfl).1 9 rfl,
   (c5_trusted_tries_fast_path (fun _ => 0) (Except.ok 1) (Except.ok 2)
      ⟨⟨none, 0, 0, 0, 0, 0⟩, ⟨0, 0, 0, 0, 0, 0, 0⟩, none, none, none⟩
      ⟨ChainId.Mainnet, false, true⟩ rfl).2.1 rfl⟩

/-- C4: when trie computation actually runs (`trust_global_tries` unset)
and the asserted expected global state root differs from the computed one,
`update_tries` fails with the global-state-root-mismatch error, for every
validation context — in particular regardless of `ignore_block_order`. -/
theorem c4_state_root_mismatch_not_overridable (poseidonHashArray : List Felt → Felt)
    (c k : Felt) (block : PreValidatedBlock) (validation : BlockValidationContext)
    (e : Felt) (htrust : validation.trust_global_tries = false)
    (hassert : block.unverified_global_state_root = some e)
    (hne : e ≠ calculate_state_root poseidonHashArray c k) :
    update_tries poseidonHashArray (Except.ok c) (Except.ok k) block validation =
      Except.error (BlockImportError.GlobalStateRoot
        (calculate_state_root poseidonHashArray c k) e) := by
  simp [update_tries, htrust, hassert, hne, except_bind_ok, except_pure]

/-- Witness for C4, with `ignore_block_order` set: the mismatch error is
raised anyway. -/
theorem c4_state_root_mismatch_not_overridable_witness :
    update_tries (fun _ => 0) (Except.ok 1) (Except.ok 2)
      ⟨⟨none, 0, 0, 0, 0, 0⟩, ⟨0, 0, 0, 0, 0, 0, 0⟩, none, none, some 5⟩
      ⟨ChainId.Mainnet, true, false⟩ =
      Except.error (BlockImportError.GlobalStateRoot
        (calculate_state_root (fun _ => 0) 1 2) 5) :=
  c4_state_root_mismatch_not_overridable (fun _ => 0) 1 2
    ⟨⟨none, 0, 0, 0, 0, 0⟩, ⟨0, 0, 0, 0, 0, 0, 0⟩, none, none, some 5⟩
    ⟨ChainId.Mainnet, true, false⟩ 5 rfl rfl (by decide)

/-- C6: at genesis (no latest finalized block) the expected block number is
0 and the expected parent hash is the zero felt; a claimed number `g ≠ 0`
with `ignore_block_order` disabled fails with block-number-mismatch
carrying expected 0 and the claimed number; with the flag set the claimed
number is used as-is (and the returned parent hash is still zero). -/
theorem c6_genesis_block_number (parent_block_hash : Option Felt) (g : Nat)
    (validation : BlockValidationContext) :
    (validation.ignore_block_order = false → g ≠ 0 →
      check_parent_hash_and_num none parent_block_hash (some g) validation =
        Except.error (BlockImportError.LatestBlockN 0 g)) ∧
    (validation.ignore_block_order = true →
      check_parent_hash_and_num none parent_block_hash (some g) validation =
        Except.ok (g, Felt.ZERO)) ∧
    check_parent_hash_and_num none none none validation = Except.ok (0, Felt.ZERO) := by
  refine ⟨fun hord hg => ?_, fun hord => ?_, rfl⟩ <;>
    rcases parent_block_hash with _ | claimed <;>
    simp [check_parent_hash_and_num, except_bind_ok, except_bind_error, hord, *]

/-- Witness for C6: importing number 3 as genesis fails without the flag
and goes through (with zero parent hash) with it. -/
theorem c6_genesis_block_number_witness :
    check_parent_hash_and_num none (some 5) (some 3) ⟨ChainId.Mainnet, false, false⟩ =
      Except.error (BlockImportError.LatestBlockN 0 3) ∧
    check_parent_hash_and_num none (some 5) (some 3) ⟨ChainId.Mainnet, true, false⟩ =
      Except.ok (3, Felt.ZERO) :=
  ⟨(c6_genesis_block_number (some 5) 3 ⟨ChainId.Mainnet, false, false⟩).1 rfl (by decide),
   (c6_genesis_block_number (some 5) 3 ⟨ChainId.Mainnet, true, false⟩).2.1 rfl⟩

/-- C3: for a block carrying an asserted expected hash, the Mainnet
historical exception (block numbers in [1466, 2242]) accepts the block and
returns the asserted hash in place of the computed one, unconditionally;
outside the exception a mismatch between computed and asserted hash fails
with the block-hash-mismatch error unless `ignore_block_order` is set, in
which case the computed hash is returned. -/
theorem c3_mainnet_hash_exception (compute_hash : Header → ChainId → Felt)
    (block : PreValidatedBlock) (validation : BlockValidationContext)
    (n : Nat) (ph gr expected : Felt)
    (hassert : block.unverified_block_hash = some expected) :
    (validation.chain_id = ChainId.Mainnet → 1466 ≤ n → n ≤ 2242 →
      block_hash compute_hash block validation n ph gr =
        Except.ok (expected, mkHeader block n ph gr)) ∧
    (¬ (validation.chain_id = ChainId.Mainnet ∧ 1466 ≤ n ∧ n ≤ 2242) →
      expected ≠ compute_hash (mkHeader block n ph gr) validation.chain_id →
      validation.ignore_block_order = false →
      block_hash compute_hash block validation n ph gr =
        Except.error (BlockImportError.BlockHash
          (compute_hash (mkHeader block n ph gr) validation.chain_id) expected)) ∧
    (¬ (validation.chain_id = ChainId.Mainnet ∧ 1466 ≤ n ∧ n ≤ 2242) →
      validation.ignore_block_order = true →
      block_hash compute_hash block validation n ph gr =
        Except.ok (compute_hash (mkHeader block n ph gr) validation.chain_id,
          mkHeader block n ph gr)) := by
  refine ⟨fun h1 h2 h3 => ?_, fun hns hne hord => ?_, fun hns hord => ?_⟩ <;>
    simp [block_hash, hassert, *]

/-- Witness for C3: with computed hash 7 and asserted hash 5 on Mainnet,
blocks 1466 and 2242 are accepted with the asserted hash (flags unset, 5 is
a genuine mismatch), while blocks 1465 and 2243 fail with the mismatch
error; block 1465 with `ignore_block_order` set returns the computed
hash. -/
theorem c3_mainnet_hash_exception_witness :
    block_hash (fun _ _ => 7)
      ⟨⟨none, 0, 0, 0, 0, 0⟩, ⟨0, 0, 0, 0, 0, 0, 0⟩, none, some 5, none⟩
      ⟨ChainId.Mainnet, false, false⟩ 1466 0 0 =
      Except.ok (5, mkHeader
        ⟨⟨none, 0, 0, 0, 0, 0⟩, ⟨0, 0, 0, 0, 0, 0, 0⟩, none, some 5, none⟩ 1466 0 0) ∧
    block_hash (fun _ _ => 7)
      ⟨⟨none, 0, 0, 0, 0, 0⟩, ⟨0, 0, 0, 0, 0, 0, 0⟩, none, some 5, none⟩
      ⟨ChainId.Mainnet, false, false⟩ 2242 0 0 =
      Except.ok (5, mkHeader
        ⟨⟨none, 0, 0, 0, 0, 0⟩, ⟨0, 0, 0, 0, 0, 0, 0⟩, none, some 5, none⟩ 2242 0 0) ∧
    block_hash (fun _ _ => 7)
      ⟨⟨none, 0, 0, 0, 0, 0⟩, ⟨0, 0, 0, 0, 0, 0, 0⟩, none, some 5, none⟩
      ⟨ChainId.Mainnet, false, false⟩ 1465 0 0 =
      Except.error (BlockImportError.BlockHash 7 5) ∧
    block_hash (fun _ _ => 7)
      ⟨⟨none, 0, 0, 0, 0, 0⟩, ⟨0, 0, 0, 0, 0, 0, 0⟩, none, some 5, none⟩
      ⟨ChainId.Mainnet, false, false⟩ 2243 0 0 =
      Except.error (BlockImportError.BlockHash 7 5) ∧
    block_hash (fun _ _ => 7)
      ⟨⟨none, 0, 0, 0, 0, 0⟩, ⟨0, 0, 0, 0, 0, 0, 0⟩, none, some 5, none⟩
      ⟨ChainId.Mainnet, true, false⟩ 1465 0 0 =
      Except.ok (7, mkHeader
        ⟨⟨none, 0, 0, 0, 0, 0⟩, ⟨0, 0, 0, 0, 0, 0, 0⟩, none, some 5, none⟩ 1465 0 0) :=
  ⟨(c3_mainnet_hash_exception (fun _ _ => 7) _ ⟨ChainId.Mainnet, false, false⟩
      1466 0 0 5 rfl).1 rfl (by decide) (by decide),
   (c3_mainnet_hash_exception (fun _ _ => 7) _ ⟨ChainId.Mainnet, false, false⟩
      2242 0 0 5 rfl).1 rfl (by decide) (by decide),
   (c3_mainnet_hash_exception (fun _ _ => 7) _ ⟨ChainId.Mainnet, false, false⟩
      1465 0 0 5 rfl).2.1 (by decide) (by decide) rfl,
   (c3_mainnet_hash_exception (fun _ _ => 7) _ ⟨ChainId.Mainnet, false, false⟩
      2243 0 0 5 rfl).2.1 (by decide) (by decide) rfl,
   (c3_mainnet_hash_exception (fun _ _ => 7) _ ⟨ChainId.Mainnet, true, false⟩
      1465 0 0 5 rfl).2.2 (by decide) rfl⟩

/-- An `Except` bind succeeds exactly when both stages do. -/
theorem except_bind_ok_iff {ε α β : Type} {x : Except ε α} {f : α → Except ε β}
    {b : β} : (x >>= f) = Except.ok b ↔ ∃ a, x = Except.ok a ∧ f a = Except.ok b := by
  cases x <;> simp [except_bind_ok, except_bind_error]

/-- A successful `block_hash` always returns the header assembled from the
resolved number, parent hash and global state root. -/
theorem block_hash_ok_header (compute_hash : Header → ChainId → Felt)
    (block : PreValidatedBlock) (validation : BlockValidationContext)
    (n : Nat) (ph gr hsh : Felt) (hdr : Header)
    (h : block_hash compute_hash block validation n ph gr = Except.ok (hsh, hdr)) :
    hdr = mkHeader block n ph gr := by
  unfold block_hash at h
  rcases hb : block.unverified_block_hash with _ | expected <;> rw [hb] at h <;>
    dsimp only at h
  · cases h; rfl
  · split_ifs at h <;> (cases h; rfl)

/-- Shape of a successful finalized import: the header's parent hash is the
expected one derived from the pre-import latest-block pointer, and the
latest-block pointer now holds the imported block's number and hash. -/
theorem verify_apply_inner_ok_shape (poseidonHashArray : List Felt → Felt)
    (compute_hash : Header → ChainId → Felt)
    (contract_trie_root class_trie_root : Except String Felt)
    (backend : Backend) (block : PreValidatedBlock)
    (validation : BlockValidationContext) (r : BlockImportResult) (backend' : Backend)
    (h : verify_apply_inner poseidonHashArray compute_hash contract_trie_root
      class_trie_root backend block validation = Except.ok (r, backend')) :
    r.header.parent_block_hash = expectedParentHash backend.latest_block_info ∧
    backend'.latest_block_info
      = some (MaybePendingInfo.notPending r.header.block_number r.block_hash) := by
  unfold verify_apply_inner at h
  obtain ⟨⟨bn, ph⟩, hc, h⟩ := except_bind_ok_iff.mp h
  try dsimp only at h
  obtain ⟨gr, hu, h⟩ := except_bind_ok_iff.mp h
  try dsimp only at h
  obtain ⟨⟨hsh, hdr⟩, hbh, h⟩ := except_bind_ok_iff.mp h
  try dsimp only at h
  rw [except_pure] at h
  cases h
  have hhdr := block_hash_ok_header compute_hash block validation bn ph gr hsh hdr hbh
  have hph := check_parent_hash_and_num_ok_hash backend.latest_block_info
    block.header.parent_block_hash block.unverified_block_number validation bn ph hc
  subst hhdr
  exact ⟨hph, rfl⟩

/-- Shape of a successful pending import: the pending header staged in the
backend carries, as its parent hash, the expected parent hash derived from
the pre-import latest-block pointer. -/
theorem verify_apply_pending_inner_ok_shape (backend : Backend)
    (block : PreValidatedPendingBlock) (validation : BlockValidationContext)
    (res : PendingBlockImportResult) (backend' : Backend)
    (h : verify_apply_pending_inner backend block validation = Except.ok (res, backend')) :
    backend'.stored_pending_header.map PendingHeader.parent_block_hash
      = some (expectedParentHash backend.latest_block_info) := by
  unfold verify_apply_pending_inner at h
  obtain ⟨⟨bn, ph⟩, hc, h⟩ := except_bind_ok_iff.mp h
  try dsimp only at h
  rw [except_pure] at h
  cases h
  have hph := check_parent_hash_and_num_ok_hash backend.latest_block_info
    block.header.parent_block_hash none validation bn ph hc
  simp [store_block_pending, hph]

/-- C1: every successful import — finalized or pending — embeds, as the
resulting header's parent hash, the expected parent hash derived from the
node's latest finalized block (its hash, or the zero felt at genesis),
never the candidate's claimed parent hash, whatever `ignore_block_order`
says; consequently, for finalized imports, a successful import of block
N+1 right after block N carries block N's stored hash as its parent
hash. -/
theorem c1_parent_hash_anchoring (poseidonHashArray : List Felt → Felt)
    (compute_hash : Header → ChainId → Felt) :
    (∀ (contract_trie_root class_trie_root : Except String Felt) (backend : Backend)
      (block : PreValidatedBlock) (validation : BlockValidationContext)
      (r : BlockImportResult) (backend' : Backend),
      verify_apply_inner poseidonHashArray compute_hash contract_trie_root
        class_trie_root backend block validation = Except.ok (r, backend') →
      r.header.parent_block_hash = expectedParentHash backend.latest_block_info ∧
      (∀ (ctr2 clr2 : Except String Felt) (block2 : PreValidatedBlock)
        (validation2 : BlockValidationContext) (r2 : BlockImportResult) (backend2 : Backend),
        validation2.ignore_block_order = false →
        verify_apply_inner poseidonHashArray compute_hash ctr2 clr2 backend' block2
          validation2 = Except.ok (r2, backend2) →
        r2.header.parent_block_hash = r.block_hash)) ∧
    (∀ (backend : Backend) (block : PreValidatedPendingBlock)
      (validation : BlockValidationContext) (res : PendingBlockImportResult)
      (backend' : Backend),
      verify_apply_pending_inner backend block validation = Except.ok (res, backend') →
      backend'.stored_pending_header.map PendingHeader.parent_block_hash
        = some (expectedParentHash backend.latest_block_info)) := by
  constructor
  · intro contract_trie_root class_trie_root backend block validation r backend' h
    have h1 := verify_apply_inner_ok_shape poseidonHashArray compute_hash contract_trie_root
      class_trie_root backend block validation r backend' h
    refine ⟨h1.1, fun ctr2 clr2 block2 validation2 r2 backend2 _ h2 => ?_⟩
    have h3 := (verify_apply_inner_ok_shape poseidonHashArray compute_hash ctr2 clr2
      backend' block2 validation2 r2 backend2 h2).1
    rw [h1.2] at h3
    simpa [expectedParentHash] using h3
  · intro backend block validation res backend' h
    exact verify_apply_pending_inner_ok_shape backend block validation res backend' h

/-- Witness for C1: a concrete run of both paths. The genesis finalized
block claims parent hash 5 under `ignore_block_order`, yet the stored
header carries the expected zero parent; the next finalized block
(override disabled) carries the first block's hash 42; a pending block on
that head, claiming parent hash 99 under `ignore_block_order`, stages a
pending header carrying 42 as well. -/
theorem c1_parent_hash_anchoring_witness :
    (mkHeader ⟨⟨some 5, 0, 0, 0, 0, 0⟩, ⟨0, 0, 0, 0, 0, 0, 0⟩, none, none, none⟩
      0 0 1).parent_block_hash = expectedParentHash none ∧
    (mkHeader ⟨⟨some 42, 0, 0, 0, 0, 0⟩, ⟨0, 0, 0, 0, 0, 0, 0⟩, some 1, none, none⟩
      1 42 1).parent_block_hash = 42 ∧
    (Backend.stored_pending_header
      ⟨some (MaybePendingInfo.notPending 0 42), some ⟨42, 0, 0, 0, 0, 0⟩⟩).map
        PendingHeader.parent_block_hash = some 42 :=
  ⟨((c1_parent_hash_anchoring (fun _ => 0) (fun _ _ => 42)).1 (Except.ok 1) (Except.ok 0)
      ⟨none, none⟩ ⟨⟨some 5, 0, 0, 0, 0, 0⟩, ⟨0, 0, 0, 0, 0, 0, 0⟩, none, none, none⟩
      ⟨ChainId.Mainnet, true, false⟩
      ⟨mkHeader ⟨⟨some 5, 0, 0, 0, 0, 0⟩, ⟨0, 0, 0, 0, 0, 0, 0⟩, none, none, none⟩ 0 0 1, 42⟩
      ⟨some (MaybePendingInfo.notPending 0 42), none⟩ (by rfl)).1,
   ((c1_parent_hash_anchoring (fun _ => 0) (fun _ _ => 42)).1 (Except.ok 1) (Except.ok 0)
      ⟨none, none⟩ ⟨⟨some 5, 0, 0, 0, 0, 0⟩, ⟨0, 0, 0, 0, 0, 0, 0⟩, none, none, none⟩
      ⟨ChainId.Mainnet, true, false⟩
      ⟨mkHeader ⟨⟨some 5, 0, 0, 0, 0, 0⟩, ⟨0, 0, 0, 0, 0, 0, 0⟩, none, none, none⟩ 0 0 1, 42⟩
      ⟨some (MaybePendingInfo.notPending 0 42), none⟩ (by rfl)).2
     (Except.ok 1) (Except.ok 0)
     ⟨⟨some 42, 0, 0, 0, 0, 0⟩, ⟨0, 0, 0, 0, 0, 0, 0⟩, some 1, none, none⟩
     ⟨ChainId.Mainnet, false, false⟩
     ⟨mkHeader ⟨⟨some 42, 0, 0, 0, 0, 0⟩, ⟨0, 0, 0, 0, 0, 0, 0⟩, some 1, none, none⟩ 1 42 1, 42⟩
     ⟨some (MaybePendingInfo.notPending 1 42), none⟩ rfl (by rfl),
   (c1_parent_hash_anchoring (fun _ => 0) (fun _ _ => 42)).2
     ⟨some (MaybePendingInfo.notPending 0 42), none⟩ ⟨⟨some 99, 0, 0, 0, 0, 0⟩⟩
     ⟨ChainId.Mainnet, true, false⟩ ⟨⟩
     ⟨some (MaybePendingInfo.notPending 0 42), some ⟨42, 0, 0, 0, 0, 0⟩⟩ (by rfl)⟩

/-- Committing a batch processes puts in order. -/
theorem commitInfo_cons (db : ClassDb) (tier : Tier)
    (p : Felt × ClassInfoWithBlockNumber) (ps : List (Felt × ClassInfoWithBlockNumber)) :
    commitInfo db tier (p :: ps) = commitInfo (db.putInfo tier p.1 p.2) tier ps := rfl

/-- An info put leaves the finalized info column unchanged at other keys
(and everywhere, when the put targets the pending column). -/
theorem putInfo_class_info_ne (db : ClassDb) (tier : Tier) (a : Felt)
    (x : ClassInfoWithBlockNumber) (k : Felt) (h : k ≠ a) :
    (db.putInfo tier a x).class_info k = db.class_info k := by
  cases tier <;> simp [ClassDb.putInfo, Col.put, h]

/-- An info put leaves the pending info column unchanged at other keys. -/
theorem putInfo_pending_class_info_ne (db : ClassDb) (tier : Tier) (a : Felt)
    (x : ClassInfoWithBlockNumber) (k : Felt) (h : k ≠ a) :
    (db.putInfo tier a x).pending_class_info k = db.pending_class_info k := by
  cases tier <;> simp [ClassDb.putInfo, Col.put, h]

/-- An info put targeting either tier never touches the compiled columns. -/
theorem putInfo_compiled_cols (db : ClassDb) (tier : Tier) (a : Felt)
    (x : ClassInfoWithBlockNumber) :
    (db.putInfo tier a x).class_compiled = db.class_compiled ∧
    (db.putInfo tier a x).pending_class_compiled = db.pending_class_compiled := by
  cases tier <;> exact ⟨rfl, rfl⟩

/-- A compiled put never touches the info columns. -/
theorem putCompiled_info_cols (db : ClassDb) (tier : Tier) (a : Felt)
    (x : CompiledSierra) :
    (db.putCompiled tier a x).class_info = db.class_info ∧
    (db.putCompiled tier a x).pending_class_info = db.pending_class_info := by
  cases tier <;> exact ⟨rfl, rfl⟩

/-- Reading the targeted compiled column right after a compiled put. -/
theorem putCompiled_compiledCol (db : ClassDb) (tier : Tier) (a : Felt)
    (x : CompiledSierra) (q : Felt) :
    (db.putCompiled tier a x).compiledCol tier q =
      if q = a then some x else db.compiledCol tier q := by
  cases tier <;> simp [ClassDb.putCompiled, ClassDb.compiledCol, Col.put]

/-- If the duplicate check already holds for `k` in the state a chunk
reads, the chunk's accumulated write batch never carries key `k`. -/
theorem infoBatch_avoids (db : ClassDb) (block_id : DbBlockId) (k : Felt)
    (hk : db.contains_class k = true) :
    ∀ (chunk : List ConvertedClass) (acc : List (Felt × ClassInfoWithBlockNumber)),
      (∀ p ∈ acc, p.1 ≠ k) →
      ∀ p ∈ chunk.foldl
        (fun batch c =>
          if db.contains_class c.class_hash then batch
          else batch ++ [(c.class_hash, ⟨c.info, block_id⟩)])
        acc, p.1 ≠ k := by
  intro chunk
  induction chunk with
  | nil => intro acc hacc; simpa using hacc
  | cons c cs ih =>
    intro acc hacc
    simp only [List.foldl_cons]
    by_cases hc : db.contains_class c.class_hash = true
    · rw [if_pos hc]
      exact ih acc hacc
    · rw [if_neg hc]
      refine ih _ fun p hp => ?_
      rcases List.mem_append.mp hp with hmem | hmem
      · exact hacc p hmem
      · have hpe : p = (c.class_hash, ⟨c.info, block_id⟩) := List.mem_singleton.mp hmem
        subst hpe
        intro hkk
        dsimp only at hkk
        rw [hkk] at hc
        exact hc hk

/-- Committing a batch that avoids key `k` leaves both info columns
unchanged at `k`. -/
theorem commitInfo_preserve (tier : Tier) (k : Felt) :
    ∀ (batch : List (Felt × ClassInfoWithBlockNumber)) (db : ClassDb),
      (∀ p ∈ batch, p.1 ≠ k) →
      (commitInfo db tier batch).class_info k = db.class_info k ∧
      (commitInfo db tier batch).pending_class_info k = db.pending_class_info k := by
  intro batch
  induction batch with
  | nil => intro db _; exact ⟨rfl, rfl⟩
  | cons p ps ih =>
    intro db hn
    rw [commitInfo_cons]
    have hnk : k ≠ p.1 := fun hkp => hn p (List.mem_cons_self p ps) hkp.symm
    have hrest := ih (db.putInfo tier p.1 p.2) fun q hq => hn q (List.mem_cons_of_mem _ hq)
    exact ⟨hrest.1.trans (putInfo_class_info_ne db tier p.1 p.2 k hnk),
      hrest.2.trans (putInfo_pending_class_info_ne db tier p.1 p.2 k hnk)⟩

/-- Committing any batch never touches the compiled columns. -/
theorem commitInfo_compiled (tier : Tier) :
    ∀ (batch : List (Felt × ClassInfoWithBlockNumber)) (db : ClassDb),
      (commitInfo db tier batch).class_compiled = db.class_compiled ∧
      (commitInfo db tier batch).pending_class_compiled = db.pending_class_compiled := by
  intro batch
  induction batch with
  | nil => intro db; exact ⟨rfl, rfl⟩
  | cons p ps ih =>
    intro db
    rw [commitInfo_cons]
    have hrest := ih (db.putInfo tier p.1 p.2)
    have hput := putInfo_compiled_cols db tier p.1 p.2
    exact ⟨hrest.1.trans hput.1, hrest.2.trans hput.2⟩

/-- The whole chunked info-write phase leaves both info columns unchanged
at a key the finalized tier already contains. -/
theorem infoPhase_preserve (block_id : DbBlockId) (tier : Tier) (k : Felt) :
    ∀ (chunks : List (List ConvertedClass)) (db : ClassDb),
      db.contains_class k = true →
      ((chunks.foldl (fun d chunk => commitInfo d tier (infoBatch d block_id chunk)) db).class_info k
        = db.class_info k ∧
       (chunks.foldl (fun d chunk => commitInfo d tier (infoBatch d block_id chunk)) db).pending_class_info k
        = db.pending_class_info k) := by
  intro chunks
  induction chunks with
  | nil => intro db _; exact ⟨rfl, rfl⟩
  | cons chunk rest ih =>
    intro db hk
    rw [List.foldl_cons]
    have havoid := infoBatch_avoids db block_id k hk chunk [] (by simp)
    have hpres := commitInfo_preserve tier k (infoBatch db block_id chunk) db havoid
    have hk' : (commitInfo db tier (infoBatch db block_id chunk)).contains_class k = true := by
      simpa [ClassDb.contains_class, hpres.1] using hk
    have hrest := ih (commitInfo db tier (infoBatch db block_id chunk)) hk'
    exact ⟨hrest.1.trans hpres.1, hrest.2.trans hpres.2⟩

/-- The info-write phase never touches the compiled columns. -/
theorem infoPhase_compiled (block_id : DbBlockId) (tier : Tier) :
    ∀ (chunks : List (List ConvertedClass)) (db : ClassDb),
      ((chunks.foldl (fun d chunk => commitInfo d tier (infoBatch d block_id chunk)) db).class_compiled
        = db.class_compiled ∧
       (chunks.foldl (fun d chunk => commitInfo d tier (infoBatch d block_id chunk)) db).pending_class_compiled
        = db.pending_class_compiled) := by
  intro chunks
  induction chunks with
  | nil => intro db; exact ⟨rfl, rfl⟩
  | cons chunk rest ih =>
    intro db
    rw [List.foldl_cons]
    have hstep := commitInfo_compiled tier (infoBatch db block_id chunk) db
    have hrest := ih (commitInfo db tier (infoBatch db block_id chunk))
    exact ⟨hrest.1.trans hstep.1, hrest.2.trans hstep.2⟩

/-- A fold of compiled puts never touches the info columns. -/
theorem compiledFold_info (tier : Tier) :
    ∀ (kvs : List (Felt × CompiledSierra)) (db : ClassDb),
      ((kvs.foldl (fun d' p => d'.putCompiled tier p.1 p.2) db).class_info = db.class_info ∧
       (kvs.foldl (fun d' p => d'.putCompiled tier p.1 p.2) db).pending_class_info
        = db.pending_class_info) := by
  intro kvs
  induction kvs with
  | nil => intro db; exact ⟨rfl, rfl⟩
  | cons p ps ih =>
    intro db
    rw [List.foldl_cons]
    have hstep := putCompiled_info_cols db tier p.1 p.2
    have hrest := ih (db.putCompiled tier p.1 p.2)
    exact ⟨hrest.1.trans hstep.1, hrest.2.trans hstep.2⟩

/-- The chunked compiled-write phase never touches the info columns. -/
theorem compiledPhase_info (tier : Tier) :
    ∀ (chunks : List (List (Felt × CompiledSierra))) (db : ClassDb),
      ((chunks.foldl (fun d chunk => chunk.foldl (fun d' p => d'.putCompiled tier p.1 p.2) d) db).class_info
        = db.class_info ∧
       (chunks.foldl (fun d chunk => chunk.foldl (fun d' p => d'.putCompiled tier p.1 p.2) d) db).pending_class_info
        = db.pending_class_info) := by
  intro chunks
  induction chunks with
  | nil => intro db; exact ⟨rfl, rfl⟩
  | cons chunk rest ih =>
    intro db
    rw [List.foldl_cons]
    have hstep := compiledFold_info tier chunk db
    have hrest := ih (chunk.foldl (fun d' p => d'.putCompiled tier p.1 p.2) db)
    exact ⟨hrest.1.trans hstep.1, hrest.2.trans hstep.2⟩

/-- Chunking then flattening gives back the list. -/
theorem chunked_join {α : Type} (n : Nat) : ∀ l : List α, (chunked n l).flatten = l
  | [] => by simp [chunked]
  | x :: xs => by
    rw [chunked]
    have ih := chunked_join n (xs.drop (n - 1))
    simp [ih]
termination_by l => l.length
decreasing_by
  simp only [List.length_drop, List.length_cons]
  omega

/-- Folding compiled puts chunk by chunk equals folding over the flattened
list. -/
theorem compiledPhase_eq_joinFold (tier : Tier) :
    ∀ (chunks : List (List (Felt × CompiledSierra))) (db : ClassDb),
      chunks.foldl (fun d chunk => chunk.foldl (fun d' p => d'.putCompiled tier p.1 p.2) d) db
        = chunks.flatten.foldl (fun d' p => d'.putCompiled tier p.1 p.2) db := by
  intro chunks
  induction chunks with
  | nil => intro db; rfl
  | cons chunk rest ih =>
    intro db
    rw [List.foldl_cons, List.flatten_cons, List.foldl_append, ih]

/-- The targeted compiled column after a fold of puts is the last-wins
selection over the put list. -/
theorem compiledFold_at (tier : Tier) (q : Felt) :
    ∀ (kvs : List (Felt × CompiledSierra)) (db : ClassDb),
      (kvs.foldl (fun d' p => d'.putCompiled tier p.1 p.2) db).compiledCol tier q
        = kvs.foldl (fun acc p => if q = p.1 then some p.2 else acc) (db.compiledCol tier q) := by
  intro kvs
  induction kvs with
  | nil => intro db; rfl
  | cons p ps ih =>
    intro db
    rw [List.foldl_cons, List.foldl_cons, ih, putCompiled_compiledCol]

/-- A `store_classes` call leaves both info columns unchanged at any key
the finalized tier already contains. -/
theorem store_classes_info_preserve (batchSize : Nat) (db : ClassDb)
    (block_id : DbBlockId) (classes : List ConvertedClass) (tier : Tier) (k : Felt)
    (hk : db.contains_class k = true) :
    (store_classes batchSize db block_id classes tier).class_info k = db.class_info k ∧
    (store_classes batchSize db block_id classes tier).pending_class_info k
      = db.pending_class_info k := by
  have h1 := infoPhase_preserve block_id tier k (chunked batchSize classes) db hk
  have h2 := compiledPhase_info tier
    (chunked batchSize (classes.filterMap sierraCompiledKv))
    ((chunked batchSize classes).foldl
      (fun d chunk => commitInfo d tier (infoBatch d block_id chunk)) db)
  exact ⟨(congrFun h2.1 k).trans h1.1, (congrFun h2.2 k).trans h1.2⟩

/-- C7: if a class's identity hash already exists in the finalized
class-info tier, every later `store_classes` batch skips that class's info
write and leaves the first-seen record intact — in particular, declaring
the same class hash again in a later finalized block
(`class_db_store_block`) is a no-op for that key, not an error (the model
is total: only underlying storage failures, not modelled, make the Rust
function return an error). -/
theorem c7_redeclaration_first_writer_wins (batchSize : Nat) (db : ClassDb)
    (block_id : DbBlockId) (block_number : Nat) (classes : List ConvertedClass)
    (tier : Tier) (k : Felt) (v : ClassInfoWithBlockNumber)
    (hk : db.class_info k = some v) :
    (store_classes batchSize db block_id classes tier).class_info k = some v ∧
    (class_db_store_block batchSize db block_number classes).class_info k = some v := by
  have hc : db.contains_class k = true := by simp [ClassDb.contains_class, hk]
  exact ⟨(store_classes_info_preserve batchSize db block_id classes tier k hc).1.trans hk,
    (store_classes_info_preserve batchSize db (DbBlockId.BlockN block_number) classes
      Tier.finalized k hc).1.trans hk⟩

/-- Witness for C7: a class first declared at block 0 survives a
re-declaration of the same class hash stored at block 3 untouched. -/
theorem c7_redeclaration_first_writer_wins_witness :
    (class_db_store_block 1024
      ⟨fun k' => if k' = 1 then some ⟨7, DbBlockId.BlockN 0⟩ else none,
       fun _ => none, fun _ => none, fun _ => none⟩
      3 [ConvertedClass.legacy 1 9]).class_info 1 = some ⟨7, DbBlockId.BlockN 0⟩ :=
  (c7_redeclaration_first_writer_wins 1024
    ⟨fun k' => if k' = 1 then some ⟨7, DbBlockId.BlockN 0⟩ else none,
     fun _ => none, fun _ => none, fun _ => none⟩
    (DbBlockId.BlockN 3) 3 [ConvertedClass.legacy 1 9] Tier.finalized 1
    ⟨7, DbBlockId.BlockN 0⟩ rfl).2

/-- A singleton list is one chunk, whatever the batch size. -/
theorem chunked_singleton {α : Type} (n : Nat) (x : α) : chunked n [x] = [[x]] := by
  rw [chunked.eq_def]
  simp [chunked]

/-- Reading the targeted info column right after an info put at that key. -/
theorem putInfo_infoCol_self (db : ClassDb) (tier : Tier) (a : Felt)
    (x : ClassInfoWithBlockNumber) :
    (db.putInfo tier a x).infoCol tier a = some x := by
  cases tier <;> simp [ClassDb.putInfo, ClassDb.infoCol, Col.put]

/-- C10: the first-writer-wins skip only governs class metadata. The
compiled column a `store_classes` call leaves behind is exactly the
last-wins fold of the compiled artifacts of all Sierra classes in the
batch over the prior column — independent of the duplicate check; in
particular a Sierra class whose identity hash is already finalized has its
info write skipped but its compiled artifact written (overwriting the
previous artifact under that compiled class hash), and a class present
only in the pending tier does not suppress the info write (the duplicate
check consults only the finalized tier). -/
theorem c10_compiled_always_written (batchSize : Nat) (db : ClassDb)
    (block_id : DbBlockId) (classes : List ConvertedClass) (tier : Tier)
    (q k : Felt) (info : ClassInfo) (cch : Felt) (comp : CompiledSierra) :
    ((store_classes batchSize db block_id classes tier).compiledCol tier q =
      (classes.filterMap sierraCompiledKv).foldl
        (fun acc p => if q = p.1 then some p.2 else acc) (db.compiledCol tier q)) ∧
    (db.contains_class k = true →
      (store_classes batchSize db block_id [ConvertedClass.sierra k info cch comp]
        tier).compiledCol tier cch = some comp ∧
      (store_classes batchSize db block_id [ConvertedClass.sierra k info cch comp]
        tier).class_info k = db.class_info k ∧
      (store_classes batchSize db block_id [ConvertedClass.sierra k info cch comp]
        tier).pending_class_info k = db.pending_class_info k) ∧
    (db.class_info k = none →
      (store_classes batchSize db block_id [ConvertedClass.sierra k info cch comp]
        tier).infoCol tier k = some ⟨info, block_id⟩) := by
  have hgen : ∀ (cls : List ConvertedClass) (q' : Felt),
      (store_classes batchSize db block_id cls tier).compiledCol tier q' =
        (cls.filterMap sierraCompiledKv).foldl
          (fun acc p => if q' = p.1 then some p.2 else acc) (db.compiledCol tier q') := by
    intro cls q'
    have e1 : store_classes batchSize db block_id cls tier
        = (cls.filterMap sierraCompiledKv).foldl (fun d' p => d'.putCompiled tier p.1 p.2)
            ((chunked batchSize cls).foldl
              (fun d chunk => commitInfo d tier (infoBatch d block_id chunk)) db) := by
      unfold store_classes
      dsimp only
      rw [compiledPhase_eq_joinFold, chunked_join]
    rw [e1, compiledFold_at]
    have hX := infoPhase_compiled block_id tier (chunked batchSize cls) db
    have hXc : ((chunked batchSize cls).foldl
        (fun d chunk => commitInfo d tier (infoBatch d block_id chunk)) db).compiledCol tier q'
        = db.compiledCol tier q' := by
      cases tier with
      | finalized => exact congrFun hX.1 q'
      | pending => exact congrFun hX.2 q'
    rw [hXc]
  refine ⟨hgen classes q, fun hk => ?_, fun hnone => ?_⟩
  · refine ⟨?_, (store_classes_info_preserve batchSize db block_id
      [ConvertedClass.sierra k info cch comp] tier k hk).1,
      (store_classes_info_preserve batchSize db block_id
        [ConvertedClass.sierra k info cch comp] tier k hk).2⟩
    rw [hgen [ConvertedClass.sierra k info cch comp] cch]
    simp [sierraCompiledKv]
  · have hstore : store_classes batchSize db block_id
        [ConvertedClass.sierra k info cch comp] tier
        = (db.putInfo tier k ⟨info, block_id⟩).putCompiled tier cch comp := by
      unfold store_classes
      dsimp only
      rw [show ([ConvertedClass.sierra k info cch comp].filterMap sierraCompiledKv)
        = [(cch, comp)] from rfl]
      rw [chunked_singleton, chunked_singleton]
      simp [List.foldl_cons, List.foldl_nil, infoBatch, ClassDb.contains_class, hnone,
        commitInfo, ConvertedClass.class_hash, ConvertedClass.info]
    rw [hstore]
    have hic := putCompiled_info_cols (db.putInfo tier k ⟨info, block_id⟩) tier cch comp
    have : ((db.putInfo tier k ⟨info, block_id⟩).putCompiled tier cch comp).infoCol tier k
        = (db.putInfo tier k ⟨info, block_id⟩).infoCol tier k := by
      cases tier with
      | finalized => exact congrFun hic.1 k
      | pending => exact congrFun hic.2 k
    rw [this, putInfo_infoCol_self]

/-- Witness for C10: re-storing Sierra class 1 (already finalized at block
0 with info 7) with compiled hash 5 and artifact 13 overwrites the old
artifact 11 but keeps the old info; on a database whose finalized tier is
empty but whose pending tier holds class 1, the info write happens
anyway. -/
theorem c10_compiled_always_written_witness :
    (store_classes 1024
      ⟨fun k' => if k' = 1 then some ⟨7, DbBlockId.BlockN 0⟩ else none,
       fun k' => if k' = 5 then some 11 else none,
       fun _ => none, fun _ => none⟩
      (DbBlockId.BlockN 3) [ConvertedClass.sierra 1 9 5 13]
      Tier.finalized).compiledCol Tier.finalized 5 = some 13 ∧
    (store_classes 1024
      ⟨fun k' => if k' = 1 then some ⟨7, DbBlockId.BlockN 0⟩ else none,
       fun k' => if k' = 5 then some 11 else none,
       fun _ => none, fun _ => none⟩
      (DbBlockId.BlockN 3) [ConvertedClass.sierra 1 9 5 13]
      Tier.finalized).class_info 1 = some ⟨7, DbBlockId.BlockN 0⟩ ∧
    (store_classes 1024
      ⟨fun _ => none, fun _ => none,
       fun k' => if k' = 1 then some ⟨8, DbBlockId.Pending⟩ else none,
       fun _ => none⟩
      (DbBlockId.BlockN 3) [ConvertedClass.sierra 1 9 5 13]
      Tier.finalized).infoCol Tier.finalized 1 = some ⟨9, DbBlockId.BlockN 3⟩ :=
  ⟨((c10_compiled_always_written 1024
      ⟨fun k' => if k' = 1 then some ⟨7, DbBlockId.BlockN 0⟩ else none,
       fun k' => if k' = 5 then some 11 else none,
       fun _ => none, fun _ => none⟩
      (DbBlockId.BlockN 3) [ConvertedClass.sierra 1 9 5 13]
      Tier.finalized 0 1 9 5 13).2.1 rfl).1,
   ((c10_compiled_always_written 1024
      ⟨fun k' => if k' = 1 then some ⟨7, DbBlockId.BlockN 0⟩ else none,
       fun k' => if k' = 5 then some 11 else none,
       fun _ => none, fun _ => none⟩
      (DbBlockId.BlockN 3) [ConvertedClass.sierra 1 9 5 13]
      Tier.finalized 0 1 9 5 13).2.1 rfl).2.1,
   (c10_compiled_always_written 1024
      ⟨fun _ => none, fun _ => none,
       fun k' => if k' = 1 then some ⟨8, DbBlockId.Pending⟩ else none,
       fun _ => none⟩
      (DbBlockId.BlockN 3) [ConvertedClass.sierra 1 9 5 13]
      Tier.finalized 0 1 9 5 13).2.2 rfl⟩

/-- C8: read visibility of the two-tier store. A record finalized at block
M answers a read anchored at finalized block N exactly when M ≤ N; a
pending-tier record always answers a pending-aware read; and a
finalized-anchored read never sees pending-tier data (if the finalized
column lacks the key, the read is absent whatever pending holds). -/
theorem c8_two_tier_visibility (db : ClassDb) (k : Felt) :
    (∀ (ci : ClassInfo) (m n : Nat),
      db.class_info k = some ⟨ci, DbBlockId.BlockN m⟩ →
      get_class_info db (DbBlockId.BlockN n) k = if m ≤ n then some ci else none) ∧
    (∀ (ci : ClassInfo) (bid : DbBlockId),
      db.pending_class_info k = some ⟨ci, bid⟩ →
      get_class_info db DbBlockId.Pending k = some ci) ∧
    (∀ n : Nat, db.class_info k = none →
      get_class_info db (DbBlockId.BlockN n) k = none) := by
  refine ⟨fun ci m n h => ?_, fun ci bid h => ?_, fun n h => ?_⟩
  · by_cases hmn : m ≤ n <;>
      simp [get_class_info, class_db_get_encoded_kv_info, DbBlockId.is_pending, h,
        visibilityValid, hmn]
  · simp [get_class_info, class_db_get_encoded_kv_info, DbBlockId.is_pending, h,
      visibilityValid]
  · simp [get_class_info, class_db_get_encoded_kv_info, DbBlockId.is_pending, h]

/-- Witness for C8: a record finalized at block 5 is visible at 5 and
invisible at 4; a pending record is visible to a pending read and
invisible at any finalized anchor. -/
theorem c8_two_tier_visibility_witness :
    get_class_info
      ⟨fun k' => if k' = 1 then some ⟨7, DbBlockId.BlockN 5⟩ else none,
       fun _ => none,
       fun k' => if k' = 2 then some ⟨8, DbBlockId.Pending⟩ else none,
       fun _ => none⟩ (DbBlockId.BlockN 5) 1 = some 7 ∧
    get_class_info
      ⟨fun k' => if k' = 1 then some ⟨7, DbBlockId.BlockN 5⟩ else none,
       fun _ => none,
       fun k' => if k' = 2 then some ⟨8, DbBlockId.Pending⟩ else none,
       fun _ => none⟩ (DbBlockId.BlockN 4) 1 = none ∧
    get_class_info
      ⟨fun k' => if k' = 1 then some ⟨7, DbBlockId.BlockN 5⟩ else none,
       fun _ => none,
       fun k' => if k' = 2 then some ⟨8, DbBlockId.Pending⟩ else none,
       fun _ => none⟩ DbBlockId.Pending 2 = some 8 ∧
    get_class_info
      ⟨fun k' => if k' = 1 then some ⟨7, DbBlockId.BlockN 5⟩ else none,
       fun _ => none,
       fun k' => if k' = 2 then some ⟨8, DbBlockId.Pending⟩ else none,
       fun _ => none⟩ (DbBlockId.BlockN 99) 2 = none :=
  ⟨(c8_two_tier_visibility
      ⟨fun k' => if k' = 1 then some ⟨7, DbBlockId.BlockN 5⟩ else none,
       fun _ => none,
       fun k' => if k' = 2 then some ⟨8, DbBlockId.Pending⟩ else none,
       fun _ => none⟩ 1).1 7 5 5 rfl,
   (c8_two_tier_visibility
      ⟨fun k' => if k' = 1 then some ⟨7, DbBlockId.BlockN 5⟩ else none,
       fun _ => none,
       fun k' => if k' = 2 then some ⟨8, DbBlockId.Pending⟩ else none,
       fun _ => none⟩ 1).1 7 5 4 rfl,
   (c8_two_tier_visibility
      ⟨fun k' => if k' = 1 then some ⟨7, DbBlockId.BlockN 5⟩ else none,
       fun _ => none,
       fun k' => if k' = 2 then some ⟨8, DbBlockId.Pending⟩ else none,
       fun _ => none⟩ 2).2.1 8 DbBlockId.Pending rfl,
   (c8_two_tier_visibility
      ⟨fun k' => if k' = 1 then some ⟨7, DbBlockId.BlockN 5⟩ else none,
       fun _ => none,
       fun k' => if k' = 2 then some ⟨8, DbBlockId.Pending⟩ else none,
       fun _ => none⟩ 2).2.2 99 rfl⟩
